import Mathlib

/-!
Verification of the cortev session/cookie core against its specification.

The definitions below are a shallow embedding of the Rust sources:
  * `cortev-session/src/state.rs`    — the `SessionState` machine,
  * `cortev-session/src/lib.rs`      — `Session` and its mutators,
  * `cortev-session/src/key.rs`      — `SessionKey` and its `Display`,
  * `cortev-session/src/middleware/service.rs` — the middleware finalization,
  * `cortev-session/src/driver/*`    — the driver protocol, memory and redis drivers,
  * `session/src/driver/*`           — the second-generation driver crate,
  * `cortev-cookie/src/*`            — cookie classification and jar parsing.

Effectful Rust code (async driver calls, the redis transport, randomness)
is embedded by making the effect explicit: the generated random key and the
transport replies are parameters, and drivers produce explicit call traces
or store-to-store functions.
-/

namespace Cortev

/-- States of a session during one request.
Source: `cortev-session/src/state.rs`, `enum SessionState`. -/
inductive SessionState where
  | unchanged
  | changed
  | regenerated
  | invalidated
deriving DecidableEq, Repr

/-- Merge rule combining the current state with a requested transition.
Source: `cortev-session/src/state.rs`, `impl Transition<SessionState> for
SessionState`, where the Rust `match (self, new_state)` arms are tried in
order: `(_, Invalidated)`, `(_, Regenerated)`, `(Unchanged, Changed)`,
and finally `(current, _) => current`. -/
def SessionState.transition (s t : SessionState) : SessionState :=
  match s, t with
  | _, .invalidated => .invalidated
  | _, .regenerated => .regenerated
  | .unchanged, .changed => .changed
  | current, _ => current

/-- JSON-compatible values stored in a session (`serde_json::Value`).
Numbers are modelled as the integers the sources store (`i32` reads and
writes in `increment_by`); arrays and objects play no role in the claims
and are omitted from the embedding. -/
inductive JsonValue where
  | null
  | bool (b : Bool)
  | num (n : Int)
  | str (s : String)
deriving DecidableEq, Repr

/-- Session payload: `type SessionData = HashMap<Cow<'static, str>, Value>`
(`cortev-session/src/lib.rs`), embedded as an association list whose keys
are kept unique by the operations below. -/
def SessionData := List (String × JsonValue)
deriving DecidableEq, Repr

/-- Lookup, `HashMap::get`. -/
def SessionData.get (d : SessionData) (k : String) : Option JsonValue :=
  (List.find? (fun p => p.1 = k) d).map (fun p => p.2)

/-- Removal, `HashMap::remove` (the removed value is recovered with `get`). -/
def SessionData.remove (d : SessionData) (k : String) : SessionData :=
  List.filter (fun p => ¬ p.1 = k) d

/-- Insertion with replacement, `HashMap::insert`. -/
def SessionData.insert (d : SessionData) (k : String) (v : JsonValue) : SessionData :=
  (k, v) :: d.remove k

/-- Session value: `struct Session { key, state, data }`
(`cortev-session/src/lib.rs`). The `SessionKey` wrapper around `Arc<str>`
compares by content, so it is embedded as the underlying string. -/
structure Session where
  key : String
  state : SessionState
  data : SessionData
deriving DecidableEq, Repr

/-- Builder result: `SessionBuilder<WithData>::build` constructs the session
with `state: SessionState::Unchanged` (`cortev-session/src/builder.rs`). -/
def Session.build (key : String) (data : SessionData) : Session :=
  { key := key, state := .unchanged, data := data }

/-- Source: `Session::insert` — inserts the pair and transitions the state
with `Changed`. -/
def Session.insert (s : Session) (k : String) (v : JsonValue) : Session :=
  { s with data := s.data.insert k v, state := s.state.transition .changed }

/-- Source: `Session::regenerate` — transitions the state with `Regenerated`. -/
def Session.regenerate (s : Session) : Session :=
  { s with state := s.state.transition .regenerated }

/-- Source: `Session::invalidate` — clears `data` and transitions the state
with `Invalidated`. -/
def Session.invalidate (s : Session) : Session :=
  { s with data := [], state := s.state.transition .invalidated }

/-- Source: `Session::get::<i32>` as used by `increment_by`:
`self.get(&key).unwrap_or(0)`; a missing key or a non-numeric value makes
`get` return `None`, collapsed to `0` by `unwrap_or`. -/
def Session.getInt (s : Session) (k : String) : Int :=
  match s.data.get k with
  | some (.num n) => n
  | _ => 0

/-- Source: `Session::increment_by` — reads the value (default 0), adds the
incrementor and stores it back through `insert`. (`i32` arithmetic is
embedded as `Int`; the claims do not concern overflow.) -/
def Session.increment_by (s : Session) (k : String) (incrementor : Int) : Session :=
  s.insert k (.num (s.getInt k + incrementor))

/-- Source: `Session::remove` — removes the key and transitions with
`Changed`. -/
def Session.remove (s : Session) (k : String) : Session :=
  { s with data := s.data.remove k, state := s.state.transition .changed }

/-- Source: `Session::pull` — removes the key, returning the updated session
and the removed value, and transitions with `Changed`. -/
def Session.pull (s : Session) (k : String) : Session × Option JsonValue :=
  ({ s with data := s.data.remove k, state := s.state.transition .changed },
   s.data.get k)

/-- Source: `Session::forget` — removes each listed key, then transitions
with `Changed` once. -/
def Session.forget (s : Session) (keys : List String) : Session :=
  { s with data := keys.foldl (fun d k => d.remove k) s.data,
           state := s.state.transition .changed }

/-- Source: `Session::flush` — clears all data and transitions with
`Changed`. -/
def Session.flush (s : Session) : Session :=
  { s with data := [], state := s.state.transition .changed }

/-- Source: `Session::regenerate_token` — stores a fresh random token under
`"_token"` and transitions with `Changed`; the generated token
(`generate_random_key(40)`) is passed in as `tok`. -/
def Session.regenerate_token (s : Session) (tok : String) : Session :=
  { s with data := s.data.insert "_token" (.str tok),
           state := s.state.transition .changed }

/-- Source: `impl fmt::Display for SessionKey`
(`cortev-session/src/key.rs`): a key longer than 24 characters is rendered
as its first 8 characters, `"..."`, and its last 8 characters; a shorter
key is rendered fully. The Rust code slices bytes; session keys are
alphanumeric ASCII, where bytes and characters coincide. -/
def sessionKeyDisplay (key : String) : String :=
  if key.length > 24 then
    key.take 8 ++ "..." ++ key.drop (key.length - 8)
  else key

/-- Driver persistence calls observable at the middleware boundary
(`SessionDriver::write/regenerate/invalidate`). -/
inductive DriverCall where
  | write (key : String) (data : SessionData)
  | regenerate (key : String) (data : SessionData)
  | invalidate (key : String) (data : SessionData)
deriving DecidableEq, Repr

/-- Abstract driver responses for the middleware embedding: the key each
successful persistence operation returns, and the driver's `ttl()` in
seconds. -/
structure DriverModel where
  writeKey : String → SessionData → String
  regenerateKey : String → SessionData → String
  invalidateKey : String → SessionData → String
  ttlSecs : Nat

/-- Outbound `Set-Cookie` header as the middleware builds it. -/
structure SetCookie where
  name : String
  value : String
  httpOnly : Bool
  maxAgeSecs : Nat
deriving DecidableEq, Repr

/-- Source: `SessionMiddleware::call`
(`cortev-session/src/middleware/service.rs`), cookie construction:
`Cookie::new(id, session_key.to_string())` — `to_string` goes through
`SessionKey`'s `Display`, i.e. `sessionKeyDisplay` — then
`set_http_only(true)` and `set_max_age(driver.ttl().as_secs())`. -/
def buildSessionCookie (cookieName : String) (sessionKey : String)
    (ttlSecs : Nat) : SetCookie :=
  { name := cookieName
    value := sessionKeyDisplay sessionKey
    httpOnly := true
    maxAgeSecs := ttlSecs }

/-- Outcome of the middleware's post-handler step: the driver persistence
calls issued, the session key used for the outbound cookie, and the
appended `Set-Cookie` header. -/
structure FinalizeResult where
  calls : List DriverCall
  outKey : String
  cookie : SetCookie
deriving Repr

/-- Source: the tail of `SessionMiddleware::call`
(`cortev-session/src/middleware/service.rs`): the `Session` removed from
the response extensions is decomposed with `into_parts`, the final state
selects the single driver operation (`Changed → write`, `Regenerated →
regenerate`, `Invalidated → invalidate`, `Unchanged → Ok(key)` with no
driver call), and the resulting key is wrapped into the outbound cookie;
when no session is in the extensions the pre-handler key is reused. The
embedding follows the success path — a driver error short-circuits into an
error response before any cookie is built. -/
def finalize (dm : DriverModel) (cookieName : String) (preKey : String)
    (ext : Option Session) : FinalizeResult :=
  let pair : List DriverCall × String :=
    match ext with
    | some session =>
      match session.state with
      | .changed =>
          ([.write session.key session.data], dm.writeKey session.key session.data)
      | .regenerated =>
          ([.regenerate session.key session.data],
           dm.regenerateKey session.key session.data)
      | .invalidated =>
          ([.invalidate session.key session.data],
           dm.invalidateKey session.key session.data)
      | .unchanged => ([], session.key)
    | none => ([], preKey)
  { calls := pair.1
    outKey := pair.2
    cookie := buildSessionCookie cookieName pair.2 dm.ttlSecs }

/-- Error type of the `cortev-session` crate
(`cortev-session/src/driver/mod.rs`): `NotFound` or an `anyhow`-style
`Unexpected` error, embedded with its message. -/
inductive CortevSessionError where
  | notFound
  | unexpected (msg : String)
deriving DecidableEq, Repr

/-- Backing map of the `MemoryDriver`
(`Arc<DashMap<SessionKey, Session>>`), embedded as a lookup function. -/
def MemStore := String → Option Session

namespace MemoryDriver

/-- Source: `MemoryDriver::read` (`cortev-session/src/driver/memory.rs`) —
`self.sessions.get(&key)` cloned and wrapped in `Ok`; a miss is `Ok(None)`. -/
def read (st : MemStore) (key : String) :
    Except CortevSessionError (Option Session) :=
  .ok (st key)

/-- Source: `MemoryDriver::write` — builds
`Session::builder(key).with_data(data).build()` (state `Unchanged`),
inserts it under the key and returns the key. -/
def write (st : MemStore) (key : String) (data : SessionData) : MemStore :=
  fun k => if k = key then some (Session.build key data) else st k

/-- Source: `MemoryDriver::destroy` — `self.sessions.remove(&key)`, always
`Ok(())`. -/
def destroy (st : MemStore) (key : String) : MemStore :=
  fun k => if k = key then none else st k

/-- Source: the default-derived `SessionDriver::regenerate`
(`cortev-session/src/driver/mod.rs`): `create(data)` — a `write` under a
freshly generated 64-character key, passed here as `newKey` — followed by
`destroy(old_key)`; returns the new key. -/
def regenerate (st : MemStore) (oldKey : String) (data : SessionData)
    (newKey : String) : MemStore × String :=
  let st1 := write st newKey data
  let st2 := destroy st1 oldKey
  (st2, newKey)

end MemoryDriver

/-- Redis commands issued by the drivers: `GETEX key EX ttl`,
`SET key value EX ttl` (`set_ex`), and `DEL key`. -/
inductive RedisCmd where
  | getEx (key : String) (ttlSecs : Nat)
  | setEx (key : String) (value : String) (ttlSecs : Nat)
  | del (key : String)
deriving DecidableEq, Repr

/-- Pipeline under construction: `redis::pipe()` starts empty, `set_ex`
and `del` append one command each, and `ignore` only suppresses the reply
value of the command just added. -/
structure Pipeline where
  cmds : List RedisCmd
deriving DecidableEq, Repr

/-- Source: `redis::pipe()`. -/
def Pipeline.pipe : Pipeline := ⟨[]⟩

/-- Source: `Pipeline::set_ex`. -/
def Pipeline.set_ex (p : Pipeline) (key value : String) (ttlSecs : Nat) :
    Pipeline :=
  ⟨p.cmds ++ [.setEx key value ttlSecs]⟩

/-- Source: `Pipeline::del`. -/
def Pipeline.del (p : Pipeline) (key : String) : Pipeline :=
  ⟨p.cmds ++ [.del key]⟩

/-- Source: `Pipeline::ignore` — reply bookkeeping only; the command list
is unchanged. -/
def Pipeline.ignore (p : Pipeline) : Pipeline := p

/-- Source: `enum RedisCommand` (both redis drivers): a pipelined batch or
a single command, the unit in which the transport is invoked. -/
inductive RedisCommand where
  | pipeline (cmds : List RedisCmd)
  | command (cmd : RedisCmd)
deriving DecidableEq, Repr

/-- Configuration of a `RedisDriver`: the TTL applied to every write and
the optional static key prefix. -/
structure RedisDriver where
  ttlSecs : Nat
  keyPrefix : Option String
deriving DecidableEq, Repr

/-- Source: `RedisDriver::prefixed_key` — prepend the configured prefix if
one is set. -/
def RedisDriver.prefixed_key (d : RedisDriver) (key : String) : String :=
  match d.keyPrefix with
  | some p => p ++ key
  | none => key

/-- Source: `RedisDriver::regenerate` (`session/src/driver/redis.rs`, same
in `cortev-session`): one pipeline built as `set_ex(new prefixed key,
data, ttl)` then `del(old prefixed key)` then `ignore`; the generated
64-character key is passed here as `newKey` and the serialized session
data as `dataJson`. -/
def RedisDriver.regenerateBatch (d : RedisDriver)
    (oldKey newKey dataJson : String) : RedisCommand :=
  let oldPrefixedKey := d.prefixed_key oldKey
  let prefixedNewKey := d.prefixed_key newKey
  let pipeline := Pipeline.pipe
  let pipeline := pipeline.set_ex prefixedNewKey dataJson d.ttlSecs
  let pipeline := pipeline.del oldPrefixedKey
  let pipeline := pipeline.ignore
  .pipeline pipeline.cmds

/-- Source: `RedisDriver::invalidate` — one pipeline built as `del(old
prefixed key)` then `set_ex(new prefixed key, data, ttl)` then `ignore`. -/
def RedisDriver.invalidateBatch (d : RedisDriver)
    (oldKey newKey dataJson : String) : RedisCommand :=
  let prefixedKey := d.prefixed_key oldKey
  let prefixedNewKey := d.prefixed_key newKey
  let pipeline := Pipeline.pipe
  let pipeline := pipeline.del prefixedKey
  let pipeline := pipeline.set_ex prefixedNewKey dataJson d.ttlSecs
  let pipeline := pipeline.ignore
  .pipeline pipeline.cmds

/-- Transport queries issued by the whole `regenerate` operation: exactly
the one pipelined batch. -/
def RedisDriver.regenerateQueries (d : RedisDriver)
    (oldKey newKey dataJson : String) : List RedisCommand :=
  [d.regenerateBatch oldKey newKey dataJson]

/-- Transport queries issued by the whole `invalidate` operation: exactly
the one pipelined batch. -/
def RedisDriver.invalidateQueries (d : RedisDriver)
    (oldKey newKey dataJson : String) : List RedisCommand :=
  [d.invalidateBatch oldKey newKey dataJson]

/-- Primitive trait calls, for tracing the default-derived composite
operations of `SessionDriver`. -/
inductive DriverPrim where
  | write (key : String) (data : SessionData)
  | destroy (key : String)
deriving DecidableEq, Repr

/-- Source: the default `SessionDriver::create` — a single `write` under a
freshly generated key (passed as `newKey`). -/
def createTrace (newKey : String) (data : SessionData) : List DriverPrim :=
  [.write newKey data]

/-- Source: the default `SessionDriver::invalidate`
(`session/src/driver/mod.rs`): `destroy(key)` then `create(data)`. -/
def defaultInvalidateTrace (oldKey newKey : String) (data : SessionData) :
    List DriverPrim :=
  [.destroy oldKey] ++ createTrace newKey data

/-- Source: the default `SessionDriver::regenerate`: `create(data)` then
`destroy(key)`. -/
def defaultRegenerateTrace (oldKey newKey : String) (data : SessionData) :
    List DriverPrim :=
  createTrace newKey data ++ [.destroy oldKey]

/-- Outcome of one `query_async` attempt against the transport:
success, an error with `is_connection_dropped() = true`, or any other
error. -/
inductive QueryOutcome (α : Type) where
  | ok (v : α)
  | droppedErr
  | err (e : String)
deriving DecidableEq, Repr

/-- Result of `RedisDriver::retry`: the underlying value, an underlying
error, or the fabricated internal I/O error built after the loop. -/
inductive RetryResult (α : Type) where
  | ok (v : α)
  | err (e : String)
  | internalIoError
deriving DecidableEq, Repr

/-- Source: the `while can_retry` loop of `RedisDriver::retry` (identical
in `session/src/driver/redis.rs` and `cortev-session/src/driver/redis.rs`).
The boolean flag is embedded as a loop budget (`true ↦ 1`, `false ↦ 0`):
the body runs only while the budget is positive; a successful attempt
returns its value; an error that is not connection-dropped is returned
immediately; a connection-dropped error executes `can_retry = false` —
with budget `n + 1 = 1` the recursive call carries budget `n = 0` — and
re-enters the loop head; once the condition fails, the function falls
through to `Err(RedisError::from((IoError, "Retry loop exited without
success or error")))`. `attempts i` is the transport's answer to the i-th
time the command is sent. -/
def retryLoop {α : Type} (attempts : Nat → QueryOutcome α) :
    Nat → Nat → RetryResult α
  | 0, _ => .internalIoError
  | n + 1, i =>
    match attempts i with
    | .ok v => .ok v
    | .droppedErr => retryLoop attempts n (i + 1)
    | .err e => .err e

/-- Source: `RedisDriver::retry` — the loop entered with
`can_retry = true`. -/
def RedisDriver.retry {α : Type} (attempts : Nat → QueryOutcome α) :
    RetryResult α :=
  retryLoop attempts 1 0

/-- Source: `enum SessionErrorKind` (`cortev-session/src/error.rs`, used by
the `session` crate's redis driver): which operation failed. -/
inductive SessionErrorKind where
  | read
  | write
  | destroy
  | regenerate
  | invalidate
deriving DecidableEq, Repr

/-- Source: `enum SessionError` (`cortev-session/src/error.rs`, the error
type the `session` crate's redis driver returns): serialization failures,
connection acquisition, raw command errors, the kinded wrapper carrying the
failing key and operation, and a boxed catch-all. -/
inductive SessionError where
  | serializeJson
  | deserializeJson
  | acquireConnection
  | commandError (e : String)
  | sessionKindError (source : SessionError) (key : String)
      (kind : SessionErrorKind)
  | other (msg : String)
deriving DecidableEq, Repr

namespace SessionRedis

/-- Source: `RedisDriver::read` of the `session` crate
(`session/src/driver/redis.rs`): issue `GETEX key EX ttl`; a transport
error is wrapped with the key and `SessionErrorKind::Read`; a present
value is deserialized (`DeserializeJson` on failure) and rebuilt into an
`Unchanged` session; an absent value returns `Ok(None)`. The transport's
answer is passed as `reply` and `serde_json::from_str` as `dec`. -/
def read (_d : RedisDriver) (key : String)
    (reply : Except SessionError (Option String))
    (dec : String → Option SessionData) :
    Except SessionError (Option Session) :=
  match reply with
  | .error source => .error (.sessionKindError source key .read)
  | .ok none => .ok none
  | .ok (some value) =>
    match dec value with
    | some data => .ok (some (Session.build key data))
    | none => .error .deserializeJson

end SessionRedis

namespace CortevRedis

/-- Source: `RedisDriver::read` of the `cortev-session` crate
(`cortev-session/src/driver/redis.rs`): same `GETEX`, but transport and
deserialization failures are wrapped through `anyhow` context into
`SessionError::Unexpected`, and an absent value returns
`Err(SessionError::NotFound)`. -/
def read (_d : RedisDriver) (key : String)
    (reply : Except CortevSessionError (Option String))
    (dec : String → Option SessionData) :
    Except CortevSessionError Session :=
  match reply with
  | .error _ => .error (.unexpected "cannot read session from key")
  | .ok none => .error .notFound
  | .ok (some value) =>
    match dec value with
    | some data => .ok (Session.build key data)
    | none => .error (.unexpected "cannot deserialize session data from key")

end CortevRedis

/-- Modelled from the spec: `CookieKind`, the per-cookie-name
classification `Normal | Signed | Private`. Its declaring file
`cortev-cookie/src/kind.rs` is absent from the source snapshot; the three
variants appear throughout `policy.rs`, `map.rs` and `lib.rs`. (`private`
is a Lean keyword, hence the trailing underscore.) -/
inductive CookieKind where
  | normal
  | signed
  | private_
deriving DecidableEq, Repr

/-- Source: `CookieMap` (`cookie/src/map.rs`) — a
`HashMap<CookieKey, CookieKind>` with `CookieKey = Cow<'static, str>`,
embedded as an association list with unique keys. -/
def CookieMap := List (String × CookieKind)

/-- Source: `CookieMap::get` — `self.data.get(key).copied()`. -/
def CookieMap.get (m : CookieMap) (key : String) : Option CookieKind :=
  (List.find? (fun p => p.1 = key) m).map (fun p => p.2)

/-- Source: `enum EncryptionCookiePolicy`
(`cortev-cookie/src/policy.rs`). -/
inductive EncryptionCookiePolicy where
  | inclusion (cookies : CookieMap)
  | exclusion (cookies : CookieMap)

/-- Source: `EncryptionCookiePolicy::cookie_kind` — the map's
classification when the name is present, else `Normal` under `Inclusion`
and `Private` under `Exclusion` (`unwrap_or`). -/
def EncryptionCookiePolicy.cookie_kind (p : EncryptionCookiePolicy)
    (key : String) : CookieKind :=
  match p with
  | .inclusion cookies => (cookies.get key).getD .normal
  | .exclusion cookies => (cookies.get key).getD .private_

/-- Name/value pair of a parsed cookie (`cookie::Cookie`). -/
abbrev ParsedCookie := String × String

/-- Helper for `splitSemi`, structural over the character list. -/
def splitSemiAux : List Char → List Char → List String
  | [], acc => [String.mk acc.reverse]
  | c :: rest, acc =>
    if c = ';' then String.mk acc.reverse :: splitSemiAux rest []
    else splitSemiAux rest (c :: acc)

/-- Source: Rust's `str::split(';')` as used on header values — split at
every `';'`, keeping empty pieces. -/
def splitSemi (s : String) : List String :=
  splitSemiAux s.toList []

/-- Source: `cookies_from_request` (`cortev-cookie/src/lib.rs`): every
`Cookie:` header value (non-UTF-8 values dropped by `to_str().ok()`,
embedded as the partial `toStr`) is split on `';'` and each piece parsed
with `Cookie::parse_encoded(..).ok()` (the external parser, embedded as
the partial `parse`); failed pieces are silently skipped by
`filter_map`. -/
def cookies_from_request {H : Type} (toStr : H → Option String)
    (parse : String → Option ParsedCookie) (headers : List H) :
    List ParsedCookie :=
  ((headers.filterMap toStr).flatMap splitSemi).filterMap parse

/-- Source: `typed_cookies_from_request` — pair each parsed cookie with
the policy's classification of its name. -/
def typed_cookies_from_request {H : Type} (toStr : H → Option String)
    (parse : String → Option ParsedCookie)
    (policy : EncryptionCookiePolicy) (headers : List H) :
    List (ParsedCookie × CookieKind) :=
  (cookies_from_request toStr parse headers).map
    (fun cookie => (cookie, policy.cookie_kind cookie.1))

/-- Cookie jar contents, name → value (`cookie::CookieJar` keyed by
name). -/
abbrev Jar := List (String × String)

/-- Source: `cookie::CookieJar::add_original` — stores the cookie under
its name, replacing any prior cookie of that name. -/
def Jar.add_original (j : Jar) (c : ParsedCookie) : Jar :=
  (c.1, c.2) :: List.filter (fun p => ¬ p.1 = c.1) j

/-- Lookup by name (`cookie::CookieJar::get`). -/
def Jar.get (j : Jar) (name : String) : Option String :=
  (List.find? (fun p => p.1 = name) j).map (fun p => p.2)

/-- Modelled from the spec: the routing step of `CookieJar::from_headers`.
The external `cookie` crate's `PrivateJar::add_original` and
`SignedJar::add_original` decrypt / verify the inbound value and drop a
cookie whose decryption or signature verification fails (treated as
absent, never an error); `decrypt` and `verify` stand for the crate's
authenticated decryption and HMAC verification, and a `Normal` cookie is
stored as-is. -/
def routeTypedCookie (decrypt verify : ParsedCookie → Option ParsedCookie)
    (tc : ParsedCookie × CookieKind) : Option ParsedCookie :=
  match tc.2 with
  | .normal => some tc.1
  | .private_ => decrypt tc.1
  | .signed => verify tc.1

/-- Source: `CookieJar::from_headers` (`cortev-cookie/src/lib.rs`) — each
typed cookie is routed by its kind into the plain jar or through the
private/signed wrappers; with the bucket semantics above this folds
`add_original` over the cookies, dropping those that fail routing. -/
def CookieJar.from_headers {H : Type} (toStr : H → Option String)
    (parse : String → Option ParsedCookie)
    (decrypt verify : ParsedCookie → Option ParsedCookie)
    (policy : EncryptionCookiePolicy) (start : Jar) (headers : List H) :
    Jar :=
  (typed_cookies_from_request toStr parse policy headers).foldl
    (fun jar tc =>
      match routeTypedCookie decrypt verify tc with
      | some cookie => jar.add_original cookie
      | none => jar)
    start

end Cortev

namespace Cortev

/-- C1: `SessionState::transition(S, T)` returns `Invalidated` when `T =
Invalidated`; `Regenerated` when `T = Regenerated` (for every `S`,
including `Invalidated`); `Changed` when `S = Unchanged` and `T = Changed`;
and `S` itself in every other case — in particular
`transition(Invalidated, Changed) = Invalidated` and
`transition(Changed, Unchanged) = Changed`. -/
theorem transition_table (s t : SessionState) :
    s.transition t =
      (if t = .invalidated then .invalidated
       else if t = .regenerated then .regenerated
       else if s = .unchanged ∧ t = .changed then .changed
       else s) ∧
    SessionState.transition .invalidated .changed = .invalidated ∧
    SessionState.transition .changed .unchanged = .changed := by
  refine ⟨?_, rfl, rfl⟩
  cases s <;> cases t <;> simp [SessionState.transition]

/-- C9: every public `Session` mutator returns a session whose key equals
the input session's key and whose state equals `transition(old state, T)`
with `T = Changed` for the data mutators, `Regenerated` for `regenerate`
and `Invalidated` for `invalidate`; `invalidate` additionally clears all
data. -/
theorem session_mutators_key_and_state (s : Session) (k tok : String)
    (v : JsonValue) (n : Int) (keys : List String) :
    (s.insert k v).key = s.key ∧
    (s.insert k v).state = s.state.transition .changed ∧
    (s.remove k).key = s.key ∧
    (s.remove k).state = s.state.transition .changed ∧
    (s.increment_by k n).key = s.key ∧
    (s.increment_by k n).state = s.state.transition .changed ∧
    (s.forget keys).key = s.key ∧
    (s.forget keys).state = s.state.transition .changed ∧
    (s.flush).key = s.key ∧
    (s.flush).state = s.state.transition .changed ∧
    (s.flush).data = [] ∧
    (s.pull k).1.key = s.key ∧
    (s.pull k).1.state = s.state.transition .changed ∧
    (s.regenerate).key = s.key ∧
    (s.regenerate).state = s.state.transition .regenerated ∧
    (s.invalidate).key = s.key ∧
    (s.invalidate).state = s.state.transition .invalidated ∧
    (s.invalidate).data = [] ∧
    (s.regenerate_token tok).key = s.key ∧
    (s.regenerate_token tok).state = s.state.transition .changed :=
  ⟨rfl, rfl, rfl, rfl, rfl, rfl, rfl, rfl, rfl, rfl, rfl, rfl, rfl, rfl,
   rfl, rfl, rfl, rfl, rfl, rfl⟩

/-- Driver model used for concrete instantiations: `write`, `regenerate`
and `invalidate` answer with the key they were given (as the in-repo
drivers do for `write`), and the TTL is the default 120 hours = 432000
seconds shared by both redis drivers. -/
def dmDefault : DriverModel :=
  { writeKey := fun k _ => k
    regenerateKey := fun k _ => k
    invalidateKey := fun k _ => k
    ttlSecs := 432000 }

/-- C2: after the handler's response is produced the middleware performs
exactly one driver persistence action chosen by the final session state —
`write(key, data)` for `Changed`, `regenerate(key, data)` for
`Regenerated`, `invalidate(key, data)` for `Invalidated`, and no driver
call at all for `Unchanged`, whose key is reused for the outbound
cookie. -/
theorem middleware_single_persistence_action (dm : DriverModel)
    (name preKey : String) (s : Session) :
    (finalize dm name preKey (some s)).calls.length ≤ 1 ∧
    (s.state = .changed →
      (finalize dm name preKey (some s)).calls = [.write s.key s.data]) ∧
    (s.state = .regenerated →
      (finalize dm name preKey (some s)).calls = [.regenerate s.key s.data]) ∧
    (s.state = .invalidated →
      (finalize dm name preKey (some s)).calls = [.invalidate s.key s.data]) ∧
    (s.state = .unchanged →
      (finalize dm name preKey (some s)).calls = [] ∧
      (finalize dm name preKey (some s)).outKey = s.key) := by
  obtain ⟨k, st, d⟩ := s
  cases st <;> simp [finalize]

/-- Witness for C2 at concrete sessions, one per state. -/
theorem middleware_single_persistence_action_witness :
    (finalize dmDefault "id" "pre" (some ⟨"k", .changed, []⟩)).calls =
      [.write "k" []] ∧
    (finalize dmDefault "id" "pre" (some ⟨"k", .regenerated, []⟩)).calls =
      [.regenerate "k" []] ∧
    (finalize dmDefault "id" "pre" (some ⟨"k", .invalidated, []⟩)).calls =
      [.invalidate "k" []] ∧
    (finalize dmDefault "id" "pre" (some ⟨"k", .unchanged, []⟩)).calls = [] ∧
    (finalize dmDefault "id" "pre" (some ⟨"k", .unchanged, []⟩)).outKey = "k" :=
  ⟨(middleware_single_persistence_action dmDefault "id" "pre"
      ⟨"k", .changed, []⟩).2.1 rfl,
   (middleware_single_persistence_action dmDefault "id" "pre"
      ⟨"k", .regenerated, []⟩).2.2.1 rfl,
   (middleware_single_persistence_action dmDefault "id" "pre"
      ⟨"k", .invalidated, []⟩).2.2.2.1 rfl,
   ((middleware_single_persistence_action dmDefault "id" "pre"
      ⟨"k", .unchanged, []⟩).2.2.2.2 rfl).1,
   ((middleware_single_persistence_action dmDefault "id" "pre"
      ⟨"k", .unchanged, []⟩).2.2.2.2 rfl).2⟩

set_option maxRecDepth 4000 in
/-- C4 (code bug evidence): for a generated 64-character session key the
middleware's outbound cookie carries the `Display`-truncated rendering
`first8...last8` — 19 characters — instead of the full key, because the
cookie value is built with `session_key.to_string()`; `HttpOnly` and
`Max-Age = ttl` are set as claimed. -/
theorem cookie_value_truncated_for_long_key :
    (finalize dmDefault "id" (String.mk (List.replicate 64 'a'))
        (some ⟨String.mk (List.replicate 64 'a'), .unchanged, []⟩)).cookie =
      { name := "id", value := "aaaaaaaa...aaaaaaaa", httpOnly := true,
        maxAgeSecs := 432000 } ∧
    (finalize dmDefault "id" (String.mk (List.replicate 64 'a'))
        (some ⟨String.mk (List.replicate 64 'a'), .unchanged, []⟩)).cookie.value ≠
      String.mk (List.replicate 64 'a') := by
  constructor <;> decide

/-- C6: over the `MemoryDriver` with the default-derived `regenerate`, if
`regenerate(old, data)` returns a fresh key `new ≠ old` then afterwards
`read(old) = Ok(None)` and `read(new)` yields a session whose data equals
`data`; the new key is written before the old key is destroyed, so at the
initial, intermediate and final stores at least one of the two keys is
present (given the old session existed). -/
theorem memory_regenerate_atomicity (st : MemStore) (oldKey newKey : String)
    (data : SessionData) (hne : newKey ≠ oldKey)
    (hold : (st oldKey).isSome) :
    MemoryDriver.read (MemoryDriver.regenerate st oldKey data newKey).1 oldKey =
      .ok none ∧
    MemoryDriver.read (MemoryDriver.regenerate st oldKey data newKey).1 newKey =
      .ok (some (Session.build newKey data)) ∧
    (Session.build newKey data).data = data ∧
    (MemoryDriver.regenerate st oldKey data newKey).2 = newKey ∧
    ((st oldKey).isSome ∨ (st newKey).isSome) ∧
    ((MemoryDriver.write st newKey data oldKey).isSome ∨
      (MemoryDriver.write st newKey data newKey).isSome) ∧
    (((MemoryDriver.regenerate st oldKey data newKey).1 oldKey).isSome ∨
      ((MemoryDriver.regenerate st oldKey data newKey).1 newKey).isSome) := by
  refine ⟨?_, ?_, rfl, rfl, Or.inl hold, Or.inr ?_, Or.inr ?_⟩ <;>
    simp [MemoryDriver.read, MemoryDriver.regenerate, MemoryDriver.write,
      MemoryDriver.destroy, hne]

/-- Store holding one session under `"old"`, used to instantiate C6. -/
def memStoreEx : MemStore :=
  fun k =>
    if k = "old" then some (Session.build "old" [("user_id", .num 1)])
    else none

/-- Witness for C6 at a concrete store, old key, new key, and data. -/
theorem memory_regenerate_atomicity_witness :
    MemoryDriver.read
        (MemoryDriver.regenerate memStoreEx "old" [("user_id", .num 1)] "new").1
        "old" = .ok none ∧
    MemoryDriver.read
        (MemoryDriver.regenerate memStoreEx "old" [("user_id", .num 1)] "new").1
        "new" = .ok (some (Session.build "new" [("user_id", .num 1)])) :=
  have h := memory_regenerate_atomicity memStoreEx "old" "new"
    [("user_id", .num 1)] (by decide) (by simp [memStoreEx])
  ⟨h.1, h.2.1⟩

/-- C3 (code bug evidence): when the first attempt fails with a
connection-dropped error and a second attempt would succeed, `retry`
returns the fabricated internal I/O error without ever issuing the second
attempt — `can_retry = false` makes the `while` condition fail before the
body can run again; an error that is not connection-dropped is returned
immediately, and a first-attempt success is returned as such. -/
theorem retry_exits_without_second_attempt :
    RedisDriver.retry
        (fun i => if i = 0 then QueryOutcome.droppedErr
                  else QueryOutcome.ok (42 : Nat)) =
      RetryResult.internalIoError ∧
    RedisDriver.retry
        (fun i => if i = 0 then QueryOutcome.droppedErr
                  else QueryOutcome.ok (42 : Nat)) ≠
      RetryResult.ok 42 ∧
    RedisDriver.retry (fun _ => QueryOutcome.err (α := Nat) "WRONGTYPE") =
      RetryResult.err "WRONGTYPE" ∧
    RedisDriver.retry (fun _ => QueryOutcome.ok (7 : Nat)) =
      RetryResult.ok 7 := by
  refine ⟨rfl, ?_, rfl, rfl⟩
  decide

/-- C5 (counterexample): the `cortev-session` crate's `RedisDriver::read`
surfaces a read-miss as `Err(SessionError::NotFound)` rather than a
success carrying "no session" — at a key with no stored record and a
successful transport reply, the result is not `Ok`. -/
theorem cortev_redis_read_miss_is_error :
    CortevRedis.read ⟨432000, none⟩ "missing" (.ok none) (fun _ => none) =
      .error .notFound ∧
    (CortevRedis.read ⟨432000, none⟩ "missing" (.ok none)
        (fun _ => none)).isOk = false :=
  ⟨rfl, rfl⟩

/-- C5 (amended): when the transport reply for a key with no stored record
succeeds with an absent value, the `session` crate's `RedisDriver::read`
returns `Ok(None)` and the `MemoryDriver` returns `Ok` of its (absent)
lookup, but the `cortev-session` crate's `RedisDriver::read` returns
`Err(SessionError::NotFound)`. -/
theorem redis_read_miss_behaviour (d : RedisDriver) (key : String)
    (dec : String → Option SessionData) (st : MemStore) :
    SessionRedis.read d key (.ok none) dec = .ok none ∧
    CortevRedis.read d key (.ok none) dec = .error .notFound ∧
    MemoryDriver.read st key = .ok (st key) :=
  ⟨rfl, rfl, rfl⟩

/-- C7: `RedisDriver::regenerate` sends exactly one pipelined batch whose
commands are `SET new-prefixed-key EX ttl` then `DEL old-prefixed-key`;
`RedisDriver::invalidate` sends exactly one batch in the opposite order;
and the default-derived `invalidate` destroys the old key before creating
the new one. -/
theorem redis_pipeline_order (d : RedisDriver)
    (oldKey newKey dataJson : String) (data : SessionData) :
    RedisDriver.regenerateQueries d oldKey newKey dataJson =
      [.pipeline [.setEx (d.prefixed_key newKey) dataJson d.ttlSecs,
                  .del (d.prefixed_key oldKey)]] ∧
    RedisDriver.invalidateQueries d oldKey newKey dataJson =
      [.pipeline [.del (d.prefixed_key oldKey),
                  .setEx (d.prefixed_key newKey) dataJson d.ttlSecs]] ∧
    defaultInvalidateTrace oldKey newKey data =
      [.destroy oldKey, .write newKey data] :=
  ⟨rfl, rfl, rfl⟩

/-- C8: `cookie_kind` is total — under `Inclusion(map)` a name present in
the map gets its explicit classification and an absent name gets
`Normal`; under `Exclusion(map)` a present name gets its explicit
classification and an absent name gets `Private`. -/
theorem cookie_kind_total_classification (m : CookieMap) (n : String)
    (k : CookieKind) :
    (CookieMap.get m n = some k →
      (EncryptionCookiePolicy.inclusion m).cookie_kind n = k ∧
      (EncryptionCookiePolicy.exclusion m).cookie_kind n = k) ∧
    (CookieMap.get m n = none →
      (EncryptionCookiePolicy.inclusion m).cookie_kind n = .normal ∧
      (EncryptionCookiePolicy.exclusion m).cookie_kind n = .private_) := by
  constructor <;> intro h <;>
    simp [EncryptionCookiePolicy.cookie_kind, h]

/-- Cookie map used to instantiate C8, after the spec's classification
example. -/
def cookieMapEx : CookieMap := [("session", .private_), ("csrf", .signed)]

/-- Witness for C8 at a concrete map and names. -/
theorem cookie_kind_total_classification_witness :
    (EncryptionCookiePolicy.inclusion cookieMapEx).cookie_kind "session" =
      .private_ ∧
    (EncryptionCookiePolicy.inclusion cookieMapEx).cookie_kind "theme" =
      .normal ∧
    (EncryptionCookiePolicy.exclusion cookieMapEx).cookie_kind "theme" =
      .private_ :=
  ⟨((cookie_kind_total_classification cookieMapEx "session" .private_).1
      (by decide)).1,
   ((cookie_kind_total_classification cookieMapEx "theme" .private_).2
      (by decide)).1,
   ((cookie_kind_total_classification cookieMapEx "theme" .private_).2
      (by decide)).2⟩

/-- A `find?` by name ignores entries removed by a filter on a different
name. -/
lemma find_name_filter (j : List (String × String)) (m n : String)
    (h : ¬ m = n) :
    List.find? (fun p => p.1 = n)
        (List.filter (fun p => ¬ p.1 = m) j) =
      List.find? (fun p => p.1 = n) j := by
  induction j with
  | nil => rfl
  | cons p rest ih =>
    by_cases hp : p.1 = m
    · have hn : ¬ p.1 = n := fun hc => h (hp.symm.trans hc)
      rw [List.filter_cons_of_neg (by simpa using hp),
        List.find?_cons_of_neg _ (by simpa using hn), ih]
    · rw [List.filter_cons_of_pos (by simpa using hp)]
      by_cases hn : p.1 = n
      · rw [List.find?_cons_of_pos _ (by simpa using hn),
          List.find?_cons_of_pos _ (by simpa using hn)]
      · rw [List.find?_cons_of_neg _ (by simpa using hn),
          List.find?_cons_of_neg _ (by simpa using hn), ih]

/-- Adding a cookie under one name leaves lookups of a different name
unchanged. -/
lemma jar_get_add_original_ne (j : Jar) (c : ParsedCookie) (n : String)
    (h : ¬ c.1 = n) :
    Jar.get (j.add_original c) n = Jar.get j n := by
  unfold Jar.get Jar.add_original
  rw [List.find?_cons_of_neg _ (by simpa using h), find_name_filter j c.1 n h]

/-- Folding the routing step over typed cookies none of which route to the
name `n` leaves lookups of `n` unchanged. -/
lemma jar_get_foldl_route_ne
    (decrypt verify : ParsedCookie → Option ParsedCookie)
    (l : List (ParsedCookie × CookieKind)) (start : Jar) (n : String)
    (h : ∀ c ∈ l.filterMap (routeTypedCookie decrypt verify), ¬ c.1 = n) :
    Jar.get
        (l.foldl
          (fun jar tc =>
            match routeTypedCookie decrypt verify tc with
            | some cookie => jar.add_original cookie
            | none => jar)
          start) n =
      Jar.get start n := by
  induction l generalizing start with
  | nil => rfl
  | cons tc rest ih =>
    cases hr : routeTypedCookie decrypt verify tc with
    | none =>
      rw [List.foldl_cons]
      simp only [hr]
      exact ih start (fun c hc => h c (by simp [List.filterMap_cons, hr, hc]))
    | some cookie =>
      have hcn : ¬ cookie.1 = n :=
        h cookie (by simp [List.filterMap_cons, hr])
      rw [List.foldl_cons]
      simp only [hr]
      rw [ih (start.add_original cookie)
        (fun c hc => h c (by simp [List.filterMap_cons, hr, hc]))]
      exact jar_get_add_original_ne start cookie n hcn

/-- C10: inbound cookie handling is total — `cookies_from_request` yields
exactly the pieces the parser accepts (malformed pieces are silently
skipped, never an error), and a name all of whose signed/private cookies
fail verification or decryption is absent from the jar built by
`from_headers` (lookups are as in the starting jar), never a hard
error. -/
theorem inbound_cookie_parsing_resilient {H : Type}
    (toStr : H → Option String) (parse : String → Option ParsedCookie)
    (decrypt verify : ParsedCookie → Option ParsedCookie)
    (policy : EncryptionCookiePolicy) (start : Jar) (headers : List H)
    (c : ParsedCookie) (n : String) :
    (c ∈ cookies_from_request toStr parse headers ↔
      ∃ piece,
        piece ∈ (headers.filterMap toStr).flatMap splitSemi ∧
        parse piece = some c) ∧
    ((∀ c' ∈ (typed_cookies_from_request toStr parse policy
          headers).filterMap (routeTypedCookie decrypt verify), ¬ c'.1 = n) →
      Jar.get
          (CookieJar.from_headers toStr parse decrypt verify policy start
            headers) n =
        Jar.get start n) := by
  constructor
  · unfold cookies_from_request
    exact List.mem_filterMap
  · intro h
    unfold CookieJar.from_headers
    exact jar_get_foldl_route_ne decrypt verify _ start n h

/-- Parser used to instantiate C10: accepts the one well-formed piece of
the header `"garbage; good=1"` and rejects everything else. -/
def parseEx : String → Option ParsedCookie := fun s =>
  if s = " good=1" ∨ s = "good=1" then some ("good", "1") else none

set_option maxRecDepth 4000 in
/-- Witness for C10: a header with one malformed piece parses to exactly
its well-formed cookie, and a private cookie whose decryption fails is
absent from the jar. -/
theorem inbound_cookie_parsing_resilient_witness :
    ("good", "1") ∈ cookies_from_request some parseEx ["garbage; good=1"] ∧
    Jar.get
        (CookieJar.from_headers some parseEx (fun _ => none) (fun _ => none)
          (.exclusion []) [] ["garbage; good=1"]) "good" =
      Jar.get ([] : Jar) "good" :=
  ⟨(inbound_cookie_parsing_resilient some parseEx (fun _ => none)
      (fun _ => none) (.exclusion []) [] ["garbage; good=1"] ("good", "1")
      "good").1.mpr ⟨" good=1", by decide, by decide⟩,
   (inbound_cookie_parsing_resilient some parseEx (fun _ => none)
      (fun _ => none) (.exclusion []) [] ["garbage; good=1"] ("good", "1")
      "good").2 (by decide)⟩

end Cortev
